import Mathlib

/-!
Shallow embedding of the AquaHarvest assessment service core
(`backend/assessment-service/src/services/assessmentService.js`) in Lean 4.

Modelling conventions:
* JavaScript numbers are modelled by `ℚ`; outputs that the code passes through
  `Math.round` are modelled with `jsRound` (round half toward positive
  infinity, which is what `Math.round` does).
* JavaScript falsy-defaulting (`x || d`) on numbers is modelled by
  `jsOrQ` / option matching: `0`, `null` and `undefined` select the default.
* A JavaScript division whose divisor is `0` produces the non-finite values
  `Infinity`/`NaN`; fields that can carry such a value are modelled as
  `Option ℚ`, with `none` standing for the non-finite outcome.
* The external collaborators (ML rainfall service, roof detector, feasibility
  analyzer, database store) are injected through an `Env` record: `some`
  carries a successful response, `none` a failure/timeout, matching the
  `try`/`catch` fallback structure of the source.
-/

namespace AquaHarvest

/-- JavaScript `Math.round`: round half toward positive infinity. -/
def jsRound (x : ℚ) : ℤ := ⌊x + 1/2⌋

/-- JavaScript `Math.round(x * 10) / 10` (rounding to one decimal place). -/
def jsRound1 (x : ℚ) : ℚ := (jsRound (x * 10) : ℚ) / 10

/-- JavaScript `x || d` for numbers: `0` is falsy and selects the default. -/
def jsOrQ (x d : ℚ) : ℚ := if x = 0 then d else x

/-- JavaScript `x || d` for an optional number: `null`/`undefined`/`0` select
the default. -/
def jsOrOptQ (x : Option ℚ) (d : ℚ) : ℚ :=
  match x with
  | some v => if v = 0 then d else v
  | none => d

/-- JavaScript `s || d` for strings: the empty string is falsy. -/
def jsOrStr (s d : String) : String := if s = "" then d else s

/-- `_determineRegion(lat, lng)` from assessmentService.js (lines 588-594). -/
def determineRegion (lat lng : ℚ) : String :=
  if lat > 28 then "north"
  else if lat < 15 then "south"
  else if lng < 77 then "west"
  else if lng > 85 then "east"
  else "central"

/-- The `this.waterCosts` table (INR per 1000L) with the `|| 28` default used
at its lookup site (line 398). -/
def waterCosts (region : String) : ℚ :=
  if region = "north" then 25
  else if region = "south" then 30
  else if region = "east" then 20
  else if region = "west" then 35
  else if region = "central" then 28
  else 28

/-- The `regionalRainfall` fallback table with the `|| 850` default used at
its lookup site (line 199). -/
def regionalRainfall (region : String) : ℚ :=
  if region = "north" then 650
  else if region = "south" then 920
  else if region = "east" then 1200
  else if region = "west" then 550
  else if region = "central" then 850
  else 850

/-- Rainfall step output: the fields of the ML response / fallback object that
the rest of the pipeline reads (`status`, `annual_prediction.total_rainfall`,
`annual_prediction.deviation_percent`). -/
structure RainfallData where
  status : String
  total_rainfall : ℚ
  deviation_percent : ℚ
  deriving DecidableEq, Inhabited

/-- `_getRainfallData` (lines 178-208): return the ML collaborator's response
when it succeeds; on any failure fall back to the regional default with
status "estimated". `ml = none` models the collaborator failing. -/
def getRainfallData (ml : Option RainfallData) (lat lng : ℚ) : RainfallData :=
  match ml with
  | some r => r
  | none =>
      { status := "estimated"
        total_rainfall := regionalRainfall (determineRegion lat lng)
        deviation_percent := 0 }

/-- Roof-detection step output. -/
structure RoofDetection where
  status : String
  area_sqm : ℚ
  confidence : ℚ
  deriving DecidableEq, Inhabited

/-- The `estimations` table of `_detectRoofArea` with its `|| 100` default
(line 239). -/
def roofEstimations (bt : String) : ℚ :=
  if bt = "residential" then 100
  else if bt = "commercial" then 250
  else if bt = "industrial" then 500
  else if bt = "institutional" then 200
  else 100

/-- `_detectRoofArea` (lines 213-242): call the detector only when an image
URL is present; on failure or absence of an image, fall back to the
building-type estimate with confidence 0.6. -/
def detectRoofArea (detector : Option RoofDetection) (imageUrl : Option String)
    (bt : String) : RoofDetection :=
  match imageUrl, detector with
  | some _, some r => r
  | _, _ =>
      { status := "estimated"
        area_sqm := roofEstimations bt
        confidence := 3/5 }

/-- The `runoffCoefficients` table of `_calculateWaterPotential` with its
`|| 0.85` default (line 256). -/
def runoffCoefficients (roofType : String) : ℚ :=
  if roofType = "concrete" then 9/10
  else if roofType = "tile" then 17/20
  else if roofType = "metal" then 19/20
  else if roofType = "asbestos" then 41/50
  else if roofType = "green" then 3/5
  else 17/20

structure WaterPotential where
  annual_liters : ℤ
  daily_average : ℤ
  monthly_average : ℤ
  runoff_coefficient : ℚ
  collection_efficiency : ℚ
  deriving DecidableEq, Inhabited

/-- `_calculateWaterPotential` (lines 247-268). The collection-efficiency
constant 0.95 is reported but never applied to the liters figure. -/
def calculateWaterPotential (roofArea annualRainfall : ℚ) (roofType : String) :
    WaterPotential :=
  let coefficient := runoffCoefficients roofType
  let annualLiters := roofArea * annualRainfall * coefficient
  { annual_liters := jsRound annualLiters
    daily_average := jsRound (annualLiters / 365)
    monthly_average := jsRound (annualLiters / 12)
    runoff_coefficient := coefficient
    collection_efficiency := 19/20 }

structure BuildingCoeffs where
  users : ℚ
  daily_usage : ℚ
  deriving DecidableEq, Inhabited

/-- The `this.buildingCoefficients` table; `_calculateWaterDemand` falls back
to the residential row for an unknown building type (line 274). -/
def buildingCoefficients (bt : String) : BuildingCoeffs :=
  if bt = "residential" then ⟨4, 150⟩
  else if bt = "commercial" then ⟨25, 50⟩
  else if bt = "industrial" then ⟨100, 200⟩
  else if bt = "institutional" then ⟨50, 80⟩
  else ⟨4, 150⟩

structure WaterDemand where
  daily_liters : ℚ
  monthly_liters : ℚ
  annual_liters : ℚ
  per_capita_daily : ℚ
  occupancy : ℚ
  deriving DecidableEq, Inhabited

/-- `_calculateWaterDemand` (lines 273-287). -/
def calculateWaterDemand (bt : String) (occupancy : ℚ) : WaterDemand :=
  let coeffs := buildingCoefficients bt
  let dailyDemand := occupancy * coeffs.daily_usage
  { daily_liters := dailyDemand
    monthly_liters := dailyDemand * 30
    annual_liters := dailyDemand * 365
    per_capita_daily := coeffs.daily_usage
    occupancy := occupancy }

/-- Feasibility step output: the fields the pipeline reads.
`technical_score` models `technical_analysis?.technical_score`; `none` stands
for a response with no `technical_analysis` object. -/
structure FeasibilityData where
  status : String
  feasibility_score : ℚ
  water_potential_annual : ℚ
  cost_estimate : ℚ
  payback_period_months : ℚ
  technical_score : Option ℚ
  deriving DecidableEq, Inhabited

/-- `_getFeasibilityAnalysis` (lines 292-315): ML response when available,
otherwise the fixed local heuristic. -/
def getFeasibilityAnalysis (ml : Option FeasibilityData)
    (roofArea annualRainfall : ℚ) : FeasibilityData :=
  match ml with
  | some r => r
  | none =>
      { status := "estimated"
        feasibility_score := 75
        water_potential_annual := roofArea * annualRainfall * (17/20)
        cost_estimate := roofArea * 200
        payback_period_months := 24
        technical_score := some 80 }

/-- `_getGrade` (lines 613-620). -/
def getGrade (score : ℚ) : String :=
  if score ≥ 90 then "A+"
  else if score ≥ 80 then "A"
  else if score ≥ 70 then "B+"
  else if score ≥ 60 then "B"
  else if score ≥ 50 then "C+"
  else "C"

/-- `_getRecommendationLevel` (lines 622-627). -/
def getRecommendationLevel (score : ℚ) : String :=
  if score ≥ 80 then "Highly Recommended"
  else if score ≥ 60 then "Recommended"
  else if score ≥ 40 then "Consider with Modifications"
  else "Not Recommended"

/-- The `this.storageRecommendations` table (fraction of annual potential)
with the `|| 0.15` default used at its lookup site (line 322). -/
def storageRecommendations (bt : String) : ℚ :=
  if bt = "residential" then 3/20
  else if bt = "commercial" then 3/25
  else if bt = "industrial" then 1/10
  else if bt = "institutional" then 9/50
  else 3/20

/-- A recommended harvesting structure. `capacity` is the numeric value the
code formats into the capacity string (un-rounded for the tank, whose display
string rounds it); the free-text specifications map is not modelled. -/
structure RHStructure where
  id : String
  name : String
  type : String
  capacity : ℚ
  estimated_cost : ℤ
  priority : ℕ
  description : String
  deriving DecidableEq, Inhabited

/-- The Primary Storage Tank entry of `_generateStructureRecommendations`
(lines 326-341). -/
def primaryStorageTank (waterPotential : WaterPotential) (bt : String) :
    RHStructure :=
  let tankCapacity :=
    min 5000 ((waterPotential.annual_liters : ℚ) * storageRecommendations bt)
  { id := "primary_storage"
    name := "Primary Storage Tank"
    type := "storage"
    capacity := tankCapacity
    estimated_cost := jsRound (tankCapacity * 15 + 5000)
    priority := 1
    description := "Main water storage tank for collected rainwater" }

/-- The First Flush Diverter entry (lines 344-356). -/
def firstFlushDiverter : RHStructure :=
  { id := "first_flush"
    name := "First Flush Diverter"
    type := "filter"
    capacity := 50
    estimated_cost := 2500
    priority := 2
    description := "Diverts initial rainfall to remove roof contaminants" }

/-- The Multi-stage Filtration entry (lines 359-371). -/
def filtrationSystem (waterDemand : WaterDemand) (budgetRange : String) :
    RHStructure :=
  { id := "filtration"
    name := "Multi-stage Filtration"
    type := "treatment"
    capacity := waterDemand.daily_liters
    estimated_cost := if budgetRange = "high" then 8000 else 4000
    priority := 3
    description := "Sand, gravel, and carbon filtration system" }

/-- The Groundwater Recharge Pit entry (lines 375-387); capacity 2 m³. -/
def rechargePit : RHStructure :=
  { id := "recharge_pit"
    name := "Groundwater Recharge Pit"
    type := "recharge"
    capacity := 2
    estimated_cost := 5000
    priority := 4
    description := "Channels excess water to groundwater" }

/-- `_generateStructureRecommendations` (lines 320-391): the tank is added
when `annual_liters * storage_ratio > 500`, the diverter and filtration are
always added, and the recharge pit is added when potential exceeds 1.5 times
demand; entries are pushed in priority order. -/
def generateStructureRecommendations (waterPotential : WaterPotential)
    (waterDemand : WaterDemand) (bt budgetRange : String) : List RHStructure :=
  (if (waterPotential.annual_liters : ℚ) * storageRecommendations bt > 500
   then [primaryStorageTank waterPotential bt] else []) ++
  [firstFlushDiverter, filtrationSystem waterDemand budgetRange] ++
  (if (waterPotential.annual_liters : ℚ) > waterDemand.annual_liters * (3/2)
   then [rechargePit] else [])

/-- `totalInstallationCost` as computed by `_calculateEconomics` (line 400):
the sum of the recommended structures' estimated costs. -/
def totalInstallationCost (structures : List RHStructure) : ℤ :=
  (structures.map (fun s => s.estimated_cost)).sum

/-- A financing option (`_getFinancingOptions`, lines 596-611). `detail`
collects the option's extra field (duration / coverage / interest rate). -/
structure FinancingOption where
  type : String
  feasible : Bool
  detail : String
  deriving DecidableEq, Inhabited

/-- `_getFinancingOptions` (lines 596-611). The installment check
`monthlyIncome && monthlyIncome > totalCost / 24` treats an income of 0 as
falsy; the bank-loan entry is always pushed, with its `feasible` flag set to
`totalCost > 50000`. -/
def getFinancingOptions (totalCost : ℚ) (monthlyIncome : Option ℚ) :
    List FinancingOption :=
  (if totalCost < 20000 then [⟨"self_funded", true, ""⟩] else []) ++
  (match monthlyIncome with
   | some income =>
       if income ≠ 0 ∧ income > totalCost / 24 then
         [⟨"monthly_installments", true, "24 months"⟩]
       else []
   | none => []) ++
  [⟨"government_subsidy", true, "30-50%"⟩,
   ⟨"bank_loan", decide (totalCost > 50000), "8-12%"⟩]

/-- Economics result. `payback_period_years` and `roi_percentage` are
`Option ℚ`: `none` models the non-finite JavaScript number (`Infinity`/`NaN`)
produced when the corresponding divisor is zero. -/
structure Economics where
  total_installation_cost : ℤ
  annual_water_savings : ℤ
  annual_maintenance_cost : ℤ
  net_annual_savings : ℤ
  payback_period_years : Option ℚ
  roi_percentage : Option ℚ
  water_cost_per_liter : ℚ
  affordability_score : ℤ
  financing_options : List FinancingOption
  deriving DecidableEq, Inhabited

/-- `_calculateEconomics` (lines 396-423). An affordability division by a
zero total cost would yield `Infinity`, capped by `Math.min` to 100; the
guard reproduces that (the pipeline never reaches it, the total being at
least 6500). -/
def calculateEconomics (structures : List RHStructure)
    (waterPotential : WaterPotential) (lat lng : ℚ)
    (monthlyIncome : Option ℚ) : Economics :=
  let region := determineRegion lat lng
  let waterCostPerL := waterCosts region / 1000
  let totalCost : ℚ := (totalInstallationCost structures : ℚ)
  let annualWaterSavings := (waterPotential.annual_liters : ℚ) * waterCostPerL
  let annualMaintenanceCost := totalCost * (1/20)
  let netAnnualSavings := annualWaterSavings - annualMaintenanceCost
  { total_installation_cost := totalInstallationCost structures
    annual_water_savings := jsRound annualWaterSavings
    annual_maintenance_cost := jsRound annualMaintenanceCost
    net_annual_savings := jsRound netAnnualSavings
    payback_period_years :=
      if netAnnualSavings = 0 then none
      else some (jsRound1 (totalCost / netAnnualSavings))
    roi_percentage :=
      if totalCost = 0 then none
      else some (jsRound1 (netAnnualSavings / totalCost * 100))
    water_cost_per_liter := waterCostPerL
    affordability_score :=
      match monthlyIncome with
      | some income =>
          if income = 0 then 70
          else if totalCost = 0 then 100
          else jsRound (min 100 (income * 12 / totalCost * 50))
      | none => 70
    financing_options := getFinancingOptions totalCost monthlyIncome }

/-- Environmental impact result (`_calculateEnvironmentalImpact`,
lines 428-445). -/
structure Environmental where
  annual_water_saved : ℤ
  co2_reduction_kg : ℚ
  energy_saved_kwh : ℤ
  groundwater_conservation : ℤ
  environmental_score : ℚ
  deriving DecidableEq, Inhabited

/-- `_calculateEnvironmentalImpact` (lines 428-445); the building type
argument of the source function is unused in its body. -/
def calculateEnvironmentalImpact (annualWaterSaved : ℚ) : Environmental :=
  let co2Reduction := annualWaterSaved / 1000 * (1/2)
  let energySaved := annualWaterSaved / 1000 * 2
  { annual_water_saved := jsRound annualWaterSaved
    co2_reduction_kg := jsRound1 co2Reduction
    energy_saved_kwh := jsRound energySaved
    groundwater_conservation := jsRound annualWaterSaved
    environmental_score := min 100 (annualWaterSaved / 10000 * 100) }

/-- The `weights` object of `_calculateOverallScore` (lines 523-529). -/
def weightFeasibility : ℚ := 3/10

def weightEconomics : ℚ := 1/4

def weightEnvironmental : ℚ := 1/5

def weightTechnical : ℚ := 3/20

def weightSocial : ℚ := 1/10

/-- The `overallScore` local of `_calculateOverallScore` (lines 531-543):
the weighted sum of the sub-scores, where `|| 75` falsy-defaulting replaces a
zero (or missing) feasibility score and technical sub-score by 75. The ROI
percentage and the environmental score are read from the economics and
environmental steps; the social score is a step function of the annual water
potential. -/
def overallScoreValue (feas : FeasibilityData)
    (roiPct environmentalScore : ℚ) (annualLiters : ℤ) : ℚ :=
  let feasibilityScore := jsOrQ feas.feasibility_score 75
  let economicsScore := min 100 (roiPct * 5)
  let technicalScore :=
    match feas.technical_score with
    | some t => jsOrQ t 75
    | none => 75
  let socialScore : ℚ := if annualLiters > 10000 then 85 else 65
  feasibilityScore * weightFeasibility + economicsScore * weightEconomics +
    environmentalScore * weightEnvironmental + technicalScore * weightTechnical +
    socialScore * weightSocial

structure OverallScore where
  overall : ℤ
  breakdown_feasibility : ℤ
  breakdown_economics : ℤ
  breakdown_environmental : ℤ
  breakdown_technical : ℤ
  breakdown_social : ℤ
  grade : String
  recommendation : String
  deriving DecidableEq, Inhabited

/-- `_calculateOverallScore` (lines 522-557): the returned `overall` rounds
the weighted sum, while the grade and recommendation label are computed from
the un-rounded sum. -/
def calculateOverallScore (feas : FeasibilityData)
    (roiPct environmentalScore : ℚ) (annualLiters : ℤ) : OverallScore :=
  { overall := jsRound (overallScoreValue feas roiPct environmentalScore annualLiters)
    breakdown_feasibility := jsRound (jsOrQ feas.feasibility_score 75)
    breakdown_economics := jsRound (min 100 (roiPct * 5))
    breakdown_environmental := jsRound environmentalScore
    breakdown_technical :=
      jsRound (match feas.technical_score with
        | some t => jsOrQ t 75
        | none => 75)
    breakdown_social := jsRound (if annualLiters > 10000 then (85 : ℚ) else 65)
    grade := getGrade (overallScoreValue feas roiPct environmentalScore annualLiters)
    recommendation :=
      getRecommendationLevel (overallScoreValue feas roiPct environmentalScore annualLiters) }

/-- The aggregation formula exactly as the claim words it (spec-side
definition, for comparison against `overallScoreValue`): a plain weighted sum
of the given feasibility score, `min(100, roi*5)`, environmental score,
technical sub-score, and the social step function, with no falsy-defaulting
of the inputs. -/
def claimOverallScore (feasibilityScore roiPct environmentalScore technicalScore : ℚ)
    (annualLiters : ℤ) : ℚ :=
  feasibilityScore * (3/10) + min 100 (roiPct * 5) * (1/4) +
    environmentalScore * (1/5) + technicalScore * (3/20) +
    (if annualLiters > 10000 then (85 : ℚ) else 65) * (1/10)

/-- A feasibility response whose score is legitimately 0 (the ML collaborator
may return any score in [0, 100]); used to exhibit the `|| 75` defaulting. -/
def feasScoreZero : FeasibilityData :=
  { status := "success"
    feasibility_score := 0
    water_potential_annual := 0
    cost_estimate := 0
    payback_period_months := 12
    technical_score := some 80 }

/-- JavaScript truthiness of an optional number: absent and 0 are falsy. -/
def jsTruthyOptQ (x : Option ℚ) : Bool :=
  match x with
  | some a => decide (a ≠ 0)
  | none => false

/-- An assessment request as it reaches `performAssessment` after the Joi
validation middleware has applied its defaults. -/
structure Params where
  latitude : ℚ
  longitude : ℚ
  address : Option String
  buildingType : String
  roofArea : Option ℚ
  roofType : String
  householdSize : Option ℚ
  monthlyIncome : Option ℚ
  budgetRange : String
  timeline : String
  imageUrl : Option String
  floors : Option ℚ
  deriving DecidableEq, Inhabited

/-- The validation enforced by the route's Joi schema
(routes/assessment.js, `assessmentSchema`): coordinates in range, enumerated
building type / roof type / budget tier, optional roof area in [10, 10000],
optional household size in [1, 50], optional non-negative income. -/
def ValidParams (p : Params) : Prop :=
  -90 ≤ p.latitude ∧ p.latitude ≤ 90 ∧
  -180 ≤ p.longitude ∧ p.longitude ≤ 180 ∧
  p.buildingType ∈ ["residential", "commercial", "industrial", "institutional"] ∧
  (∀ a ∈ p.roofArea, 10 ≤ a ∧ a ≤ 10000) ∧
  p.roofType ∈ ["concrete", "tile", "metal", "asbestos", "green"] ∧
  (∀ h ∈ p.householdSize, 1 ≤ h ∧ h ≤ 50) ∧
  (∀ i ∈ p.monthlyIncome, 0 ≤ i) ∧
  p.budgetRange ∈ ["low", "medium", "high"]

instance instDecidableValidParams (p : Params) : Decidable (ValidParams p) := by
  unfold ValidParams
  infer_instance

/-- The external collaborators injected into one `performAssessment` call:
`some` is a successful response, `none` a failure/timeout; `saveErr = some m`
makes the store write throw with message `m`. -/
structure Env where
  mlRainfall : Option RainfallData
  roofDetect : Option RoofDetection
  mlFeasibility : Option FeasibilityData
  saveErr : Option String
  deriving DecidableEq, Inhabited

/-- `_generateCacheKey` (lines 629-631): the fingerprint interpolates
latitude, longitude, the raw building type, and the roof area — with `auto`
substituted when the roof area is absent or 0 (both falsy). -/
def generateCacheKey (p : Params) : String :=
  toString p.latitude ++ "_" ++ toString p.longitude ++ "_" ++
    p.buildingType ++ "_" ++
    (match p.roofArea with
     | some a => if a = 0 then "auto" else toString a
     | none => "auto")

/-- The step outputs stored on the assessment record
(`assessment.steps`). -/
structure AssessmentSteps where
  rainfall : RainfallData
  roofDetection : Option RoofDetection
  waterPotential : WaterPotential
  waterDemand : WaterDemand
  feasibility : FeasibilityData
  structures : List RHStructure
  economics : Economics
  environmental : Environmental
  deriving DecidableEq, Inhabited

/-- The data-dependent parts of `_generateRecommendations` (lines 450-517):
the two implementation phases' costs (priority ≤ 2 vs > 2) and the two
conditional priority actions; the fixed optimization tips and maintenance
schedule are constant text and are not modelled. -/
structure Recommendations where
  phase1_cost : ℤ
  phase2_cost : ℤ
  immediate_implementation : Bool
  add_groundwater_recharge : Bool
  deriving DecidableEq, Inhabited

/-- `_generateRecommendations` (lines 450-517). The JavaScript comparison
`payback_period_years < 3` is false for the non-finite values modelled by
`none`. -/
def generateRecommendations (structures : List RHStructure)
    (economics : Economics) (waterPotential : WaterPotential)
    (waterDemand : WaterDemand) : Recommendations :=
  { phase1_cost :=
      totalInstallationCost (structures.filter (fun s => s.priority ≤ 2))
    phase2_cost :=
      totalInstallationCost (structures.filter (fun s => 2 < s.priority))
    immediate_implementation :=
      match economics.payback_period_years with
      | some x => decide (x < 3)
      | none => false
    add_groundwater_recharge :=
      decide ((waterPotential.annual_liters : ℚ) > waterDemand.annual_liters) }

/-- The assembled AssessmentResult (lines 70-158). The wall clock is modelled
by a single tick per call, so the timestamps coincide and the processing time
(a difference of timestamps within one call) is 0. -/
structure AssessmentResult where
  id : String
  timestamp : ℕ
  latitude : ℚ
  longitude : ℚ
  address : Option String
  building_type : String
  roof_area : ℚ
  roof_type : String
  floors : ℚ
  household_size : ℚ
  monthly_income : Option ℚ
  budget_range : String
  timeline : String
  status : String
  steps : AssessmentSteps
  recommendations : Recommendations
  overall_score : OverallScore
  completed_at : ℕ
  processing_time : ℕ
  cached : Bool
  deriving DecidableEq, Inhabited

/-- Steps 1-10 of `performAssessment` (lines 69-158) on a cache miss. The
household-size default reads the building-coefficients table at the defaulted
building type (line 85); `economics.roi_percentage.getD 0` is the finite ROI
number — the `none` (non-finite) case cannot arise here because the total
installation cost is at least 6500 (see the cost lower-bound theorem). -/
def computeAssessment (t : ℕ) (assessmentId : String) (p : Params)
    (env : Env) : AssessmentResult :=
  let buildingType := jsOrStr p.buildingType "residential"
  let roofType := jsOrStr p.roofType "concrete"
  let budgetRange := jsOrStr p.budgetRange "medium"
  let householdSize :=
    jsOrOptQ p.householdSize (buildingCoefficients buildingType).users
  let monthlyIncome : Option ℚ :=
    match p.monthlyIncome with
    | some i => if i = 0 then none else some i
    | none => none
  let rainfall := getRainfallData env.mlRainfall p.latitude p.longitude
  let roofDetection : Option RoofDetection :=
    if jsTruthyOptQ p.roofArea then none
    else some (detectRoofArea env.roofDetect p.imageUrl p.buildingType)
  let roofArea : ℚ :=
    match roofDetection with
    | some d => d.area_sqm
    | none => p.roofArea.getD 0
  let waterPotential :=
    calculateWaterPotential roofArea rainfall.total_rainfall roofType
  let waterDemand := calculateWaterDemand buildingType householdSize
  let feasibility :=
    getFeasibilityAnalysis env.mlFeasibility roofArea rainfall.total_rainfall
  let structures :=
    generateStructureRecommendations waterPotential waterDemand buildingType budgetRange
  let economics :=
    calculateEconomics structures waterPotential p.latitude p.longitude monthlyIncome
  let environmental :=
    calculateEnvironmentalImpact (waterPotential.annual_liters : ℚ)
  let overall :=
    calculateOverallScore feasibility (economics.roi_percentage.getD 0)
      environmental.environmental_score waterPotential.annual_liters
  { id := assessmentId
    timestamp := t
    latitude := p.latitude
    longitude := p.longitude
    address := p.address
    building_type := buildingType
    roof_area := roofArea
    roof_type := roofType
    floors := jsOrOptQ p.floors 1
    household_size := householdSize
    monthly_income := monthlyIncome
    budget_range := budgetRange
    timeline := jsOrStr p.timeline "3-6 months"
    status := "completed"
    steps :=
      { rainfall := rainfall
        roofDetection := roofDetection
        waterPotential := waterPotential
        waterDemand := waterDemand
        feasibility := feasibility
        structures := structures
        economics := economics
        environmental := environmental }
    recommendations :=
      generateRecommendations structures economics waterPotential waterDemand
    overall_score := overall
    completed_at := t
    processing_time := 0
    cached := false }

/-- `getCache`: an entry is returned while its 86400-second TTL (the value
`performAssessment` passes to `setCache`) has not elapsed. -/
def cacheGet : List (String × ℕ × AssessmentResult) → String → ℕ →
    Option AssessmentResult
  | [], _, _ => none
  | (k, t0, v) :: rest, key, t =>
      if k = key then (if t < t0 + 86400 then some v else none)
      else cacheGet rest key t

/-- `setCache` for an assessment at insertion time `t`. -/
def cacheSet (c : List (String × ℕ × AssessmentResult)) (key : String)
    (t : ℕ) (v : AssessmentResult) : List (String × ℕ × AssessmentResult) :=
  (key, t, v) :: c

/-- The `.ok` payload of a pipeline outcome (`default` on error). -/
def exVal (e : Except String AssessmentResult) : AssessmentResult :=
  e.toOption.getD default

/-- `performAssessment` (lines 56-173). A cache hit returns the stored
result with the freshly generated assessment id spliced in and the
`cached: true` marker, short-circuiting the pipeline (third output component
`false` = no recomputation). On a miss the result is computed; a store-write
failure is rethrown as `Assessment failed: <message>` and nothing is cached;
otherwise the result is stored, then cached with a 24-hour TTL, and
returned. -/
def performAssessment (t : ℕ) (fresh : String) (p : Params) (env : Env)
    (c : List (String × ℕ × AssessmentResult)) :
    Except String AssessmentResult × List (String × ℕ × AssessmentResult) × Bool :=
  let cacheKey := "assessment:" ++ generateCacheKey p
  match cacheGet c cacheKey t with
  | some cachedResult =>
      (.ok { cachedResult with id := fresh, cached := true }, c, false)
  | none =>
      let assessment := computeAssessment t fresh p env
      match env.saveErr with
      | some m => (.error ("Assessment failed: " ++ m), c, true)
      | none => (.ok assessment, cacheSet c cacheKey t assessment, true)

/-- A concrete valid request: coordinate (29, 77), residential, 120 m²
concrete roof, household of 4. -/
def pDemo : Params :=
  { latitude := 29
    longitude := 77
    address := none
    buildingType := "residential"
    roofArea := some 120
    roofType := "concrete"
    householdSize := some 4
    monthlyIncome := none
    budgetRange := "medium"
    timeline := "3-6 months"
    imageUrl := none
    floors := some 1 }

/-- An environment in which every external collaborator fails (all fallbacks
engage) but the store write succeeds. -/
def envDemo : Env :=
  { mlRainfall := none
    roofDetect := none
    mlFeasibility := none
    saveErr := none }

/-- The same environment with a failing store write. -/
def envFailDemo : Env :=
  { mlRainfall := none
    roofDetect := none
    mlFeasibility := none
    saveErr := some "store write failed" }

/-- A water potential of 13000 annual liters: at a north-region coordinate
this makes the annual water savings (325) equal the maintenance cost of the
two always-present structures (5% of 6500), so net savings are exactly 0. -/
def wpBreakEven : WaterPotential :=
  { annual_liters := 13000
    daily_average := 36
    monthly_average := 1083
    runoff_coefficient := 9/10
    collection_efficiency := 19/20 }

/-- Economics of the two always-present structures at coordinate (30, 77)
(region north, water cost 0.025 INR/L) for `wpBreakEven`, with no income. -/
def econBreakEven : Economics :=
  calculateEconomics
    [firstFlushDiverter, filtrationSystem (calculateWaterDemand "residential" 4) "low"]
    wpBreakEven 30 77 none

end AquaHarvest

namespace AquaHarvest

theorem jsRound_le_jsRound {x y : ℚ} (h : x ≤ y) : jsRound x ≤ jsRound y :=
  Int.floor_le_floor (by linarith)

theorem le_jsRound_of_le {z : ℤ} {x : ℚ} (h : (z : ℚ) ≤ x) : z ≤ jsRound x := by
  rw [jsRound, Int.le_floor]
  linarith

theorem jsRound_nonneg {x : ℚ} (h : 0 ≤ x) : 0 ≤ jsRound x :=
  le_jsRound_of_le (by exact_mod_cast h)

/-- C3: whenever the rainfall collaborator fails (`ml = none`), the Rainfall
Estimator returns provenance "estimated" and the regional default annual
rainfall given by the claimed classifier: latitude > 28 → north 650mm,
latitude < 15 → south 920mm, otherwise longitude < 77 → west 550mm,
longitude > 85 → east 1200mm, else central 850mm. Being a total Lean
function, the fallback itself never fails. -/
theorem rainfall_fallback_regional_default (lat lng : ℚ) :
    getRainfallData none lat lng =
      { status := "estimated"
        total_rainfall :=
          if lat > 28 then 650
          else if lat < 15 then 920
          else if lng < 77 then 550
          else if lng > 85 then 1200
          else 850
        deviation_percent := 0 } := by
  by_cases h1 : lat > 28 <;> by_cases h2 : lat < 15 <;>
    by_cases h3 : lng < 77 <;> by_cases h4 : lng > 85 <;>
    simp [getRainfallData, determineRegion, regionalRainfall, h1, h2, h3, h4]

/-- C7: the Water Potential Calculator returns
`annual_liters = round(roof_area * annual_rainfall * runoff_coefficient)`,
with the tabulated coefficients (concrete 0.90, tile 0.85, metal 0.95,
asbestos 0.82, green 0.60, any unknown material 0.85); the instance
`roof_area = 100, rainfall = 800, material = concrete` gives 72000; the
collection-efficiency constant 0.95 is reported but not applied to the
liters figure. -/
theorem water_potential_formula (area rain : ℚ) (mat : String) :
    (calculateWaterPotential area rain mat).annual_liters =
        jsRound (area * rain * runoffCoefficients mat) ∧
    runoffCoefficients "concrete" = 9/10 ∧
    runoffCoefficients "tile" = 17/20 ∧
    runoffCoefficients "metal" = 19/20 ∧
    runoffCoefficients "asbestos" = 41/50 ∧
    runoffCoefficients "green" = 3/5 ∧
    (∀ m : String, runoffCoefficients m =
      if m = "concrete" then 9/10
      else if m = "tile" then 17/20
      else if m = "metal" then 19/20
      else if m = "asbestos" then 41/50
      else if m = "green" then 3/5
      else 17/20) ∧
    (calculateWaterPotential area rain mat).collection_efficiency = 19/20 ∧
    (calculateWaterPotential 100 800 "concrete").annual_liters = 72000 := by
  refine ⟨rfl, rfl, rfl, rfl, rfl, rfl, fun m => rfl, rfl, ?_⟩
  show jsRound (100 * 800 * runoffCoefficients "concrete") = 72000
  norm_num [jsRound, runoffCoefficients]

theorem runoffCoefficients_nonneg (mat : String) : 0 ≤ runoffCoefficients mat := by
  unfold runoffCoefficients
  split_ifs <;> norm_num

/-- C8: with the roof material fixed, the Water Potential Calculator's
annual liters, daily average and monthly average are monotonically
non-decreasing in the roof area (for non-negative areas and rainfall) and in
the annual rainfall (for a non-negative area and non-negative rainfalls). -/
theorem water_potential_monotone (mat : String) (a1 a2 r a r1 r2 : ℚ)
    (ha1 : 0 ≤ a1) (ha12 : a1 ≤ a2) (hr : 0 ≤ r)
    (hb : 0 ≤ a) (hr1 : 0 ≤ r1) (hr12 : r1 ≤ r2) :
    ((calculateWaterPotential a1 r mat).annual_liters ≤
        (calculateWaterPotential a2 r mat).annual_liters ∧
      (calculateWaterPotential a1 r mat).daily_average ≤
        (calculateWaterPotential a2 r mat).daily_average ∧
      (calculateWaterPotential a1 r mat).monthly_average ≤
        (calculateWaterPotential a2 r mat).monthly_average) ∧
    ((calculateWaterPotential a r1 mat).annual_liters ≤
        (calculateWaterPotential a r2 mat).annual_liters ∧
      (calculateWaterPotential a r1 mat).daily_average ≤
        (calculateWaterPotential a r2 mat).daily_average ∧
      (calculateWaterPotential a r1 mat).monthly_average ≤
        (calculateWaterPotential a r2 mat).monthly_average) := by
  have hc : 0 ≤ runoffCoefficients mat := runoffCoefficients_nonneg mat
  have key1 : a1 * r * runoffCoefficients mat ≤ a2 * r * runoffCoefficients mat := by
    apply mul_le_mul_of_nonneg_right _ hc
    exact mul_le_mul_of_nonneg_right ha12 hr
  have key2 : a * r1 * runoffCoefficients mat ≤ a * r2 * runoffCoefficients mat := by
    apply mul_le_mul_of_nonneg_right _ hc
    exact mul_le_mul_of_nonneg_left hr12 hb
  unfold calculateWaterPotential
  exact ⟨⟨jsRound_le_jsRound key1, jsRound_le_jsRound (by linarith),
      jsRound_le_jsRound (by linarith)⟩,
    ⟨jsRound_le_jsRound key2, jsRound_le_jsRound (by linarith),
      jsRound_le_jsRound (by linarith)⟩⟩

/-- Witness for `water_potential_monotone`: instantiated for a tile roof with
areas 1 ≤ 2 at rainfall 3, and rainfalls 0 ≤ 1 at area 1. -/
theorem water_potential_monotone_witness :
    (0 : ℚ) ≤ 1 ∧ (1 : ℚ) ≤ 2 ∧ (0 : ℚ) ≤ 3 ∧ (0 : ℚ) ≤ 1 ∧ (0 : ℚ) ≤ 0 ∧ (0 : ℚ) ≤ 1 ∧
    (((calculateWaterPotential 1 3 "tile").annual_liters ≤
        (calculateWaterPotential 2 3 "tile").annual_liters ∧
      (calculateWaterPotential 1 3 "tile").daily_average ≤
        (calculateWaterPotential 2 3 "tile").daily_average ∧
      (calculateWaterPotential 1 3 "tile").monthly_average ≤
        (calculateWaterPotential 2 3 "tile").monthly_average) ∧
    ((calculateWaterPotential 1 0 "tile").annual_liters ≤
        (calculateWaterPotential 1 1 "tile").annual_liters ∧
      (calculateWaterPotential 1 0 "tile").daily_average ≤
        (calculateWaterPotential 1 1 "tile").daily_average ∧
      (calculateWaterPotential 1 0 "tile").monthly_average ≤
        (calculateWaterPotential 1 1 "tile").monthly_average)) :=
  ⟨by decide, by decide, by decide, by decide, by decide, by decide,
    water_potential_monotone "tile" 1 2 3 1 0 1
      (by decide) (by decide) (by decide) (by decide) (by decide) (by decide)⟩

/-- C6: the Structure Recommender (a pure function, hence deterministic)
produces a list in strictly ascending priority order (so no two entries share
a priority) containing: the Primary Storage Tank (priority 1, capacity
`min(5000, annual_liters * storage_ratio)`, cost `round(capacity*15 + 5000)`)
exactly when `annual_liters * storage_ratio(building_type) > 500` with ratios
residential 0.15, commercial 0.12, industrial 0.10, institutional 0.18; the
First Flush Diverter (cost 2500, priority 2) and the Filtration stage (cost
8000 for the high budget tier else 4000, priority 3) always; and the Recharge
Pit (cost 5000, priority 4) exactly when annual potential exceeds 1.5 times
annual demand; and nothing else. -/
theorem structure_recommendations_spec (wp : WaterPotential) (wd : WaterDemand)
    (bt budgetRange : String) :
    (generateStructureRecommendations wp wd bt budgetRange).Pairwise
      (fun s t => s.priority < t.priority) ∧
    (primaryStorageTank wp bt ∈ generateStructureRecommendations wp wd bt budgetRange ↔
      (wp.annual_liters : ℚ) * storageRecommendations bt > 500) ∧
    (primaryStorageTank wp bt).priority = 1 ∧
    (primaryStorageTank wp bt).capacity =
      min 5000 ((wp.annual_liters : ℚ) * storageRecommendations bt) ∧
    (primaryStorageTank wp bt).estimated_cost =
      jsRound ((primaryStorageTank wp bt).capacity * 15 + 5000) ∧
    storageRecommendations "residential" = 3/20 ∧
    storageRecommendations "commercial" = 3/25 ∧
    storageRecommendations "industrial" = 1/10 ∧
    storageRecommendations "institutional" = 9/50 ∧
    firstFlushDiverter ∈ generateStructureRecommendations wp wd bt budgetRange ∧
    firstFlushDiverter.estimated_cost = 2500 ∧
    firstFlushDiverter.priority = 2 ∧
    filtrationSystem wd budgetRange ∈ generateStructureRecommendations wp wd bt budgetRange ∧
    (filtrationSystem wd budgetRange).estimated_cost =
      (if budgetRange = "high" then 8000 else 4000) ∧
    (filtrationSystem wd budgetRange).priority = 3 ∧
    (rechargePit ∈ generateStructureRecommendations wp wd bt budgetRange ↔
      (wp.annual_liters : ℚ) > wd.annual_liters * (3/2)) ∧
    rechargePit.estimated_cost = 5000 ∧
    rechargePit.priority = 4 ∧
    ∀ s ∈ generateStructureRecommendations wp wd bt budgetRange,
      s = primaryStorageTank wp bt ∨ s = firstFlushDiverter ∨
        s = filtrationSystem wd budgetRange ∨ s = rechargePit := by
  have hs1 : ("primary_storage" : String) ≠ "first_flush" := by decide
  have hs2 : ("primary_storage" : String) ≠ "filtration" := by decide
  have hs3 : ("primary_storage" : String) ≠ "recharge_pit" := by decide
  have hs4 : ("recharge_pit" : String) ≠ "first_flush" := by decide
  have hs5 : ("recharge_pit" : String) ≠ "filtration" := by decide
  have hs6 : ("recharge_pit" : String) ≠ "primary_storage" := by decide
  have hne1 : primaryStorageTank wp bt ≠ firstFlushDiverter := fun h =>
    hs1 (congrArg RHStructure.id h)
  have hne2 : primaryStorageTank wp bt ≠ filtrationSystem wd budgetRange := fun h =>
    hs2 (congrArg RHStructure.id h)
  have hne3 : primaryStorageTank wp bt ≠ rechargePit := fun h =>
    hs3 (congrArg RHStructure.id h)
  have hne4 : rechargePit ≠ firstFlushDiverter := fun h =>
    hs4 (congrArg RHStructure.id h)
  have hne5 : rechargePit ≠ filtrationSystem wd budgetRange := fun h =>
    hs5 (congrArg RHStructure.id h)
  have hne6 : rechargePit ≠ primaryStorageTank wp bt := fun h =>
    hs6 (congrArg RHStructure.id h)
  refine ⟨?_, ?_, rfl, rfl, rfl, rfl, rfl, rfl, rfl, ?_, rfl, rfl, ?_, rfl, rfl,
    ?_, rfl, rfl, ?_⟩
  · by_cases h1 : (wp.annual_liters : ℚ) * storageRecommendations bt > 500 <;>
      by_cases h2 : (wp.annual_liters : ℚ) > wd.annual_liters * (3/2) <;>
      simp [generateStructureRecommendations, h1, h2, List.pairwise_cons,
        primaryStorageTank, firstFlushDiverter, filtrationSystem, rechargePit]
  · by_cases h1 : (wp.annual_liters : ℚ) * storageRecommendations bt > 500 <;>
      by_cases h2 : (wp.annual_liters : ℚ) > wd.annual_liters * (3/2) <;>
      simp [generateStructureRecommendations, h1, h2, hne1, hne2, hne3]
  · by_cases h1 : (wp.annual_liters : ℚ) * storageRecommendations bt > 500 <;>
      by_cases h2 : (wp.annual_liters : ℚ) > wd.annual_liters * (3/2) <;>
      simp [generateStructureRecommendations, h1, h2]
  · by_cases h1 : (wp.annual_liters : ℚ) * storageRecommendations bt > 500 <;>
      by_cases h2 : (wp.annual_liters : ℚ) > wd.annual_liters * (3/2) <;>
      simp [generateStructureRecommendations, h1, h2]
  · by_cases h1 : (wp.annual_liters : ℚ) * storageRecommendations bt > 500 <;>
      by_cases h2 : (wp.annual_liters : ℚ) > wd.annual_liters * (3/2) <;>
      simp [generateStructureRecommendations, h1, h2, hne4, hne5, hne6]
  · intro s hs
    by_cases h1 : (wp.annual_liters : ℚ) * storageRecommendations bt > 500 <;>
      by_cases h2 : (wp.annual_liters : ℚ) > wd.annual_liters * (3/2) <;>
      simp [generateStructureRecommendations, h1, h2] at hs <;>
      tauto

/-- C2 (code bug): at the failing input — structures = first-flush diverter +
low-budget filtration (total cost 6500), water potential 13000 L, coordinate
(30, 77), no income — net annual savings are exactly 0, and the code computes
`6500 / 0`, which in JavaScript is the non-finite number `Infinity` (modelled
`none`); no sentinel value such as "unbounded" is ever produced. -/
theorem payback_no_sentinel_at_zero_net_savings :
    econBreakEven.net_annual_savings = 0 ∧
    econBreakEven.total_installation_cost = 6500 ∧
    econBreakEven.payback_period_years = none := by
  norm_num [econBreakEven, calculateEconomics, wpBreakEven, determineRegion,
    waterCosts, totalInstallationCost, firstFlushDiverter, filtrationSystem,
    calculateWaterDemand, buildingCoefficients, jsRound,
    show (if ("low" : String) = "high" then (8000 : ℤ) else 4000) = 4000 from rfl,
    show (if ("low" : String) = "high" then (8000 : ℚ) else 4000) = 4000 from rfl]

/-- C9 counterexample: at a total cost of 10000 — not above 50000 — with no
income, the financing-options list nevertheless contains a bank-loan option
(pushed unconditionally, with `feasible = false`). -/
theorem financing_bank_loan_always_present :
    (∃ o ∈ getFinancingOptions 10000 none, o.type = "bank_loan") ∧
    ¬((10000 : ℚ) > 50000) := by
  constructor
  · refine ⟨⟨"bank_loan", decide ((10000 : ℚ) > 50000), "8-12%"⟩, ?_, rfl⟩
    simp [getFinancingOptions]
  · norm_num

/-- C9 (amended): for every non-negative total cost and optional monthly
income, the financing list contains a self-funded option iff cost < 20000, an
installment-plan option iff an income is supplied exceeding cost/24, always a
government-subsidy option at 30-50% coverage, and always a bank-loan option
whose feasible flag is set iff cost > 50000. -/
theorem financing_options_thresholds (cost : ℚ) (income : Option ℚ)
    (h : 0 ≤ cost) :
    ((∃ o ∈ getFinancingOptions cost income, o.type = "self_funded") ↔
      cost < 20000) ∧
    ((∃ o ∈ getFinancingOptions cost income, o.type = "monthly_installments") ↔
      ∃ i, income = some i ∧ i > cost / 24) ∧
    (∃ o ∈ getFinancingOptions cost income, o.type = "government_subsidy") ∧
    (∃ o ∈ getFinancingOptions cost income, o.type = "bank_loan") ∧
    (∀ o ∈ getFinancingOptions cost income, o.type = "bank_loan" →
      (o.feasible = true ↔ cost > 50000)) ∧
    (∀ o ∈ getFinancingOptions cost income, o.type = "government_subsidy" →
      o.detail = "30-50%") := by
  have h24 : 0 ≤ cost / 24 := by positivity
  by_cases hc : cost < 20000 <;> rcases income with _ | i
  · simp [getFinancingOptions, hc]
  · by_cases hi : i ≠ 0 ∧ i > cost / 24
    · simp [getFinancingOptions, hc, hi, hi.1, hi.2]
    · have hngt : ¬ i > cost / 24 := by
        rcases not_and_or.mp hi with h0 | hng
        · push_neg at h0
          subst h0
          intro hgt
          linarith
        · exact hng
      simp [getFinancingOptions, hc, hi, hngt]
  · simp [getFinancingOptions, hc]
  · by_cases hi : i ≠ 0 ∧ i > cost / 24
    · simp [getFinancingOptions, hc, hi, hi.1, hi.2]
    · have hngt : ¬ i > cost / 24 := by
        rcases not_and_or.mp hi with h0 | hng
        · push_neg at h0
          subst h0
          intro hgt
          linarith
        · exact hng
      simp [getFinancingOptions, hc, hi, hngt]

/-- Witness for `financing_options_thresholds` at cost 10000 with a monthly
income of 1000 (which exceeds 10000/24). -/
theorem financing_options_thresholds_witness :
    (0 : ℚ) ≤ 10000 ∧
    (((∃ o ∈ getFinancingOptions 10000 (some 1000), o.type = "self_funded") ↔
        (10000 : ℚ) < 20000) ∧
      ((∃ o ∈ getFinancingOptions 10000 (some 1000),
          o.type = "monthly_installments") ↔
        ∃ i, (some 1000 : Option ℚ) = some i ∧ i > 10000 / 24) ∧
      (∃ o ∈ getFinancingOptions 10000 (some 1000),
        o.type = "government_subsidy") ∧
      (∃ o ∈ getFinancingOptions 10000 (some 1000), o.type = "bank_loan") ∧
      (∀ o ∈ getFinancingOptions 10000 (some 1000), o.type = "bank_loan" →
        (o.feasible = true ↔ (10000 : ℚ) > 50000)) ∧
      (∀ o ∈ getFinancingOptions 10000 (some 1000),
        o.type = "government_subsidy" → o.detail = "30-50%")) :=
  ⟨by decide, financing_options_thresholds 10000 (some 1000) (by decide)⟩

theorem primaryStorageTank_cost_nonneg (wp : WaterPotential) (bt : String)
    (h : (wp.annual_liters : ℚ) * storageRecommendations bt > 500) :
    0 ≤ (primaryStorageTank wp bt).estimated_cost := by
  apply jsRound_nonneg
  show (0 : ℚ) ≤
    min 5000 ((wp.annual_liters : ℚ) * storageRecommendations bt) * 15 + 5000
  have h0 : (0 : ℚ) ≤ min 5000 ((wp.annual_liters : ℚ) * storageRecommendations bt) :=
    le_min (by norm_num) (by linarith)
  linarith

/-- C10: every Structure Recommender output contains the First Flush Diverter
(cost 2500) and the Filtration stage (cost at least 4000); the total
installation cost summed by the Economics Calculator is therefore at least
6500 and strictly positive, so the ROI and affordability divisions by the
total cost are never divisions by zero (the ROI is a finite `some` value). -/
theorem installation_cost_always_positive (wp : WaterPotential)
    (wd : WaterDemand) (bt budgetRange : String) :
    firstFlushDiverter ∈ generateStructureRecommendations wp wd bt budgetRange ∧
    filtrationSystem wd budgetRange ∈
      generateStructureRecommendations wp wd bt budgetRange ∧
    firstFlushDiverter.estimated_cost = 2500 ∧
    4000 ≤ (filtrationSystem wd budgetRange).estimated_cost ∧
    6500 ≤ totalInstallationCost (generateStructureRecommendations wp wd bt budgetRange) ∧
    0 < totalInstallationCost (generateStructureRecommendations wp wd bt budgetRange) ∧
    (∀ wp2 lat lng income,
      ((calculateEconomics (generateStructureRecommendations wp wd bt budgetRange)
          wp2 lat lng income).roi_percentage).isSome = true) := by
  have hfilt : (4000 : ℤ) ≤ (filtrationSystem wd budgetRange).estimated_cost := by
    by_cases hb : budgetRange = "high" <;> simp [filtrationSystem, hb]
  have htot : 6500 ≤
      totalInstallationCost (generateStructureRecommendations wp wd bt budgetRange) := by
    by_cases h1 : (wp.annual_liters : ℚ) * storageRecommendations bt > 500 <;>
      by_cases h2 : (wp.annual_liters : ℚ) > wd.annual_liters * (3/2) <;>
      [skip; skip; skip; skip] <;>
      first
        | (have htank := primaryStorageTank_cost_nonneg wp bt h1
           simp [generateStructureRecommendations, h1, h2, totalInstallationCost,
             firstFlushDiverter, rechargePit]
           linarith)
        | (simp [generateStructureRecommendations, h1, h2, totalInstallationCost,
             firstFlushDiverter, rechargePit]
           linarith)
  refine ⟨?_, ?_, rfl, hfilt, htot, by linarith, ?_⟩
  · by_cases h1 : (wp.annual_liters : ℚ) * storageRecommendations bt > 500 <;>
      by_cases h2 : (wp.annual_liters : ℚ) > wd.annual_liters * (3/2) <;>
      simp [generateStructureRecommendations, h1, h2]
  · by_cases h1 : (wp.annual_liters : ℚ) * storageRecommendations bt > 500 <;>
      by_cases h2 : (wp.annual_liters : ℚ) > wd.annual_liters * (3/2) <;>
      simp [generateStructureRecommendations, h1, h2]
  · intro wp2 lat lng income
    have hpos : (0 : ℤ) <
        totalInstallationCost (generateStructureRecommendations wp wd bt budgetRange) := by
      linarith
    have hne : ((totalInstallationCost
        (generateStructureRecommendations wp wd bt budgetRange) : ℤ) : ℚ) ≠ 0 := by
      exact_mod_cast hpos.ne'
    simp [calculateEconomics, hne]

/-- C5 counterexample: for a feasibility response whose score is 0 (a value
the [0,100] score range allows), the code's `|| 75` defaulting makes the
aggregated score 75.5, not the claimed weighted sum 53 that uses the
feasibility score itself — so the overall score does not always equal the
claimed weighted sum. -/
theorem overall_score_defaults_zero_feasibility :
    feasScoreZero.feasibility_score = 0 ∧
    overallScoreValue feasScoreZero 10 100 20000 = 151/2 ∧
    claimOverallScore feasScoreZero.feasibility_score 10 100 80 20000 = 53 ∧
    overallScoreValue feasScoreZero 10 100 20000 ≠
      claimOverallScore feasScoreZero.feasibility_score 10 100 80 20000 := by
  refine ⟨rfl, ?_, ?_, ?_⟩ <;>
    norm_num [overallScoreValue, claimOverallScore, feasScoreZero, jsOrQ,
      min_def, weightFeasibility, weightEconomics, weightEnvironmental,
      weightTechnical, weightSocial]

/-- C5 (amended): the code's aggregated score equals the claimed weighted sum
applied to the falsy-resolved sub-scores — 75 substituted for a zero
feasibility score and for a zero or missing technical sub-score; the five
weights (0.30, 0.25, 0.20, 0.15, 0.10) sum to 1; the returned `overall`
rounds that sum while grade and recommendation are computed from the
un-rounded sum; and the grade and recommendation thresholds are inclusive
(90 → "A+", 80 → "A", 70 → "B+", 60 → "B", 50 → "C+", else "C";
80 → "Highly Recommended", 60 → "Recommended", 40 → "Consider with
Modifications", else "Not Recommended"). -/
theorem overall_score_weighted_sum (feas : FeasibilityData)
    (roiPct environmentalScore : ℚ) (annualLiters : ℤ) :
    overallScoreValue feas roiPct environmentalScore annualLiters =
      claimOverallScore
        (if feas.feasibility_score = 0 then 75 else feas.feasibility_score)
        roiPct environmentalScore
        (match feas.technical_score with
          | some t => if t = 0 then 75 else t
          | none => 75)
        annualLiters ∧
    weightFeasibility + weightEconomics + weightEnvironmental +
      weightTechnical + weightSocial = 1 ∧
    (calculateOverallScore feas roiPct environmentalScore annualLiters).overall =
      jsRound (overallScoreValue feas roiPct environmentalScore annualLiters) ∧
    (calculateOverallScore feas roiPct environmentalScore annualLiters).grade =
      getGrade (overallScoreValue feas roiPct environmentalScore annualLiters) ∧
    (calculateOverallScore feas roiPct environmentalScore annualLiters).recommendation =
      getRecommendationLevel
        (overallScoreValue feas roiPct environmentalScore annualLiters) ∧
    getGrade 90 = "A+" ∧ getGrade 80 = "A" ∧ getGrade 70 = "B+" ∧
    getGrade 60 = "B" ∧ getGrade 50 = "C+" ∧ getGrade 49 = "C" ∧
    getRecommendationLevel 80 = "Highly Recommended" ∧
    getRecommendationLevel 60 = "Recommended" ∧
    getRecommendationLevel 40 = "Consider with Modifications" ∧
    getRecommendationLevel 39 = "Not Recommended" := by
  refine ⟨?_, by norm_num [weightFeasibility, weightEconomics,
      weightEnvironmental, weightTechnical, weightSocial],
    rfl, rfl, rfl, by decide, by decide, by decide, by decide, by decide,
    by decide, by decide, by decide, by decide, by decide⟩
  rcases htech : feas.technical_score with _ | t <;>
    simp [overallScoreValue, claimOverallScore, jsOrQ, htech,
      weightFeasibility, weightEconomics, weightEnvironmental, weightTechnical,
      weightSocial]

/-- C1 counterexample: at the demo request the second (cache-hit) response is
not bit-identical to the first except for the served-from-cache marker — the
assessment id is also replaced by the second call's fresh id
(`{ ...cachedResult, id: assessmentId, cached: true }`, line 66). -/
theorem cache_hit_replaces_id :
    (exVal (performAssessment 0 "id-1" pDemo envDemo []).1).id = "id-1" ∧
    (exVal (performAssessment 1 "id-2" pDemo envDemo
        (performAssessment 0 "id-1" pDemo envDemo []).2.1).1).id = "id-2" ∧
    (exVal (performAssessment 1 "id-2" pDemo envDemo
        (performAssessment 0 "id-1" pDemo envDemo []).2.1).1).cached = true ∧
    (exVal (performAssessment 0 "id-1" pDemo envDemo []).1).cached = false ∧
    ("id-1" : String) ≠ "id-2" := by
  have h1 : performAssessment 0 "id-1" pDemo envDemo [] =
      (.ok (computeAssessment 0 "id-1" pDemo envDemo),
        cacheSet [] ("assessment:" ++ generateCacheKey pDemo) 0
          (computeAssessment 0 "id-1" pDemo envDemo), true) := rfl
  have h2 : cacheGet
      (cacheSet [] ("assessment:" ++ generateCacheKey pDemo) 0
        (computeAssessment 0 "id-1" pDemo envDemo))
      ("assessment:" ++ generateCacheKey pDemo) 1 =
      some (computeAssessment 0 "id-1" pDemo envDemo) := by
    simp [cacheGet, cacheSet]
  refine ⟨?_, ?_, ?_, ?_, by decide⟩ <;>
    rw [h1] <;>
    simp only [performAssessment, h2, exVal, Except.toOption, Option.getD_some] <;>
    rfl

/-- C1 (amended): for two consecutive calls on identical latitude,
longitude, building type and supplied roof area — the first a cache miss
whose store write succeeds, the second within the 86400-second TTL — the
second call is served from cache without recomputation and returns content
bit-identical to the first result except for the served-from-cache marker
AND the assessment id, which is replaced by the second call's freshly
generated id. -/
theorem cached_assessment_identical_except_id (p q : Params) (env : Env)
    (c : List (String × ℕ × AssessmentResult)) (t1 t2 : ℕ) (id1 id2 : String)
    (hv : ValidParams p)
    (hlat : q.latitude = p.latitude) (hlng : q.longitude = p.longitude)
    (hbt : q.buildingType = p.buildingType) (hra : q.roofArea = p.roofArea)
    (hsave : env.saveErr = none)
    (hmiss : cacheGet c ("assessment:" ++ generateCacheKey p) t1 = none)
    (ht : t2 < t1 + 86400) :
    (performAssessment t1 id1 p env c).1 =
      .ok (computeAssessment t1 id1 p env) ∧
    (performAssessment t2 id2 q env (performAssessment t1 id1 p env c).2.1).1 =
      .ok { exVal (performAssessment t1 id1 p env c).1 with
              id := id2, cached := true } ∧
    (performAssessment t2 id2 q env (performAssessment t1 id1 p env c).2.1).2.2 =
      false := by
  have hkey : generateCacheKey q = generateCacheKey p := by
    unfold generateCacheKey
    rw [hlat, hlng, hbt, hra]
  have h1 : performAssessment t1 id1 p env c =
      (.ok (computeAssessment t1 id1 p env),
        cacheSet c ("assessment:" ++ generateCacheKey p) t1
          (computeAssessment t1 id1 p env), true) := by
    simp only [performAssessment, hmiss, hsave]
  have h2 : cacheGet
      (cacheSet c ("assessment:" ++ generateCacheKey p) t1
        (computeAssessment t1 id1 p env))
      ("assessment:" ++ generateCacheKey q) t2 =
      some (computeAssessment t1 id1 p env) := by
    simp [cacheGet, cacheSet, hkey, ht]
  refine ⟨by rw [h1], ?_, ?_⟩ <;>
    rw [h1] <;>
    simp only [performAssessment, h2, exVal, Except.toOption, Option.getD_some]

/-- Witness for `cached_assessment_identical_except_id`: the demo request,
all collaborators failing, store write succeeding; miss at tick 0, hit at
tick 1, fresh ids "id-1" and "id-2". -/
theorem cached_assessment_identical_except_id_witness :
    ValidParams pDemo ∧
    envDemo.saveErr = none ∧
    cacheGet [] ("assessment:" ++ generateCacheKey pDemo) 0 = none ∧
    1 < 0 + 86400 ∧
    ((performAssessment 0 "id-1" pDemo envDemo []).1 =
        .ok (computeAssessment 0 "id-1" pDemo envDemo) ∧
      (performAssessment 1 "id-2" pDemo envDemo
          (performAssessment 0 "id-1" pDemo envDemo []).2.1).1 =
        .ok { exVal (performAssessment 0 "id-1" pDemo envDemo []).1 with
                id := "id-2", cached := true } ∧
      (performAssessment 1 "id-2" pDemo envDemo
          (performAssessment 0 "id-1" pDemo envDemo []).2.1).2.2 = false) :=
  ⟨by decide, rfl, rfl, by decide,
    cached_assessment_identical_except_id pDemo pDemo envDemo [] 0 1 "id-1" "id-2"
      (by decide) rfl rfl rfl rfl rfl rfl (by decide)⟩

/-- C4 counterexample: for the valid demo request, when the store write
fails after the computation completed, `performAssessment` raises the hard
failure "Assessment failed: store write failed" — the computed result is not
returned to the caller (with or without a status flag), and nothing is
cached. -/
theorem persistence_failure_raises_counterexample :
    ValidParams pDemo ∧
    (performAssessment 0 "id-1" pDemo envFailDemo []).1 =
      .error "Assessment failed: store write failed" ∧
    (performAssessment 0 "id-1" pDemo envFailDemo []).2.1 = [] :=
  ⟨by decide, rfl, rfl⟩

/-- C4 (amended): for every valid request that reaches the computation (a
cache miss) and whose store write fails, `performAssessment` raises the hard
failure `Assessment failed: <store message>` — the computed result is not
returned, and the cache is left unchanged. (This matches the spec's §4.11
state machine and §6 interface contract; §7's return-with-status-flag
description is not what the code does.) -/
theorem persistence_failure_raises (p : Params) (env : Env)
    (c : List (String × ℕ × AssessmentResult)) (t : ℕ) (fresh m : String)
    (hv : ValidParams p) (hm : env.saveErr = some m)
    (hmiss : cacheGet c ("assessment:" ++ generateCacheKey p) t = none) :
    (performAssessment t fresh p env c).1 =
      .error ("Assessment failed: " ++ m) ∧
    (performAssessment t fresh p env c).2.1 = c := by
  constructor <;> simp only [performAssessment, hmiss, hm]

/-- Witness for `persistence_failure_raises` at the demo request with the
failing store. -/
theorem persistence_failure_raises_witness :
    ValidParams pDemo ∧
    envFailDemo.saveErr = some "store write failed" ∧
    cacheGet [] ("assessment:" ++ generateCacheKey pDemo) 0 = none ∧
    ((performAssessment 0 "id-1" pDemo envFailDemo []).1 =
        .error ("Assessment failed: " ++ "store write failed") ∧
      (performAssessment 0 "id-1" pDemo envFailDemo []).2.1 = []) :=
  ⟨by decide, rfl, rfl,
    persistence_failure_raises pDemo envFailDemo [] 0 "id-1" "store write failed"
      (by decide) rfl rfl⟩

end AquaHarvest
